import Mathlib

/-!
Verification development for the ChartQA backend
(`backend/chart_analyzer.py` and `backend/app.py`).

The pure decision logic of the repository is embedded shallowly:

* strings are modelled as `List Char` (`Str`), with Python string
  primitives (`split`, `strip`, `upper`, `lower`, `in`, `isdigit`,
  `replace`) re-implemented by structural recursion so that all
  definitions are executable and kernel-reducible;
* the raw-output parsing section of `extract_table_from_chart`
  (chart_analyzer.py lines 66-140) is embedded as a pure function of the
  raw model text (the Pix2Struct inference that produces the raw text is
  an external input to the parsing logic);
* the HTTP transport of `ask_local_llm` and `check_ollama_status` is
  modelled by an explicit outcome type: one constructor per outcome
  class the Python `try/except` discriminates (an HTTP response with a
  status code, a timeout exception, a request exception);
* the `/status` cache and the upload-file cleanup of `app.py` are
  modelled as explicit state passing (cache record, file-presence
  record), with query timestamps as rationals.
-/

namespace ChartQA

/-- Strings are modelled as lists of characters. -/
abbrev Str := List Char

/-! ## Python string primitives -/

/-- Split on the literal row-break marker `<0x0A>`, the semantics of
Python `raw_output.split('<0x0A>')` (left-to-right, non-overlapping,
empty pieces kept). -/
def splitMark : Str → List Str
  | '<' :: '0' :: 'x' :: '0' :: 'A' :: '>' :: rest => [] :: splitMark rest
  | c :: rest =>
    match splitMark rest with
    | [] => [[c]]
    | l :: ls => (c :: l) :: ls
  | [] => [[]]

/-- Split at every character satisfying `p`, keeping empty pieces:
the semantics of Python `s.split(sep)` for a one-character separator. -/
def splitIf (p : Char → Bool) : Str → List Str
  | [] => [[]]
  | c :: rest =>
    if p c then [] :: splitIf p rest
    else
      match splitIf p rest with
      | [] => [[c]]
      | l :: ls => (c :: l) :: ls

def splitChar (ch : Char) (s : Str) : List Str := splitIf (fun c => c == ch) s

/-- The whitespace characters recognised by Python `str.split()` /
`str.strip()` (ASCII subset). -/
def pyIsSpace (c : Char) : Bool :=
  c == ' ' || c == '\t' || c == '\n' || c == '\r' || c == '\x0b' || c == '\x0c'

/-- Python `s.split()` with no argument: split on whitespace runs,
discarding empty pieces. -/
def tokens (s : Str) : List Str :=
  (splitIf pyIsSpace s).filter (fun t => !t.isEmpty)

/-- Python `s.strip()`. -/
def stripL (s : Str) : Str :=
  ((s.dropWhile pyIsSpace).reverse.dropWhile pyIsSpace).reverse

/-- Python `s.upper()` (ASCII). -/
def upperL (s : Str) : Str := s.map Char.toUpper

/-- Python `s.lower()` (ASCII). -/
def lowerL (s : Str) : Str := s.map Char.toLower

/-- `hasPre s t` holds when `s` is a leading segment of `t`. -/
def hasPre : Str → Str → Bool
  | [], _ => true
  | _ :: _, [] => false
  | a :: as, b :: bs => a == b && hasPre as bs

/-- Python substring test `sub in s`. -/
def hasSub (sub : Str) : Str → Bool
  | [] => sub.isEmpty
  | s@(_ :: rest) => hasPre sub s || hasSub sub rest

/-- `endsWithL suf s` holds when `s` ends with `suf`. -/
def endsWithL (suf s : Str) : Bool := hasPre suf.reverse s.reverse

/-- Everything after the first occurrence of `ch`, the second component
of Python `s.split(ch, 1)` when `ch` occurs in `s`. -/
def afterChar (ch : Char) : Str → Str
  | [] => []
  | c :: rest => if c == ch then rest else afterChar ch rest

/-- Python `s.isdigit()` (ASCII digits; true only on nonempty strings). -/
def pyIsDigit (s : Str) : Bool := !s.isEmpty && s.all Char.isDigit

/-! ## Table extractor (`extract_table_from_chart`, chart_analyzer.py 66-140) -/

/-- `[part.strip() for part in line.split('|') if part.strip()]`. -/
def pipeParts (line : Str) : List Str :=
  ((splitChar '|' line).map stripL).filter (fun p => !p.isEmpty)

/-- `'|' in line`. -/
def hasPipe (line : Str) : Bool := line.contains '|'

/-- `"TITLE" in line.upper()`. -/
def containsTITLE (line : Str) : Bool := hasSub ("TITLE".data) (upperL line)

/-- `parts[-1].strip() if parts else "Chart"` where `parts = pipeParts line`. -/
def titleFromLine (line : Str) : Str :=
  match (pipeParts line).getLast? with
  | some p => stripL p
  | none => "Chart".data

/-- The primary parsing loop (`for i, line in enumerate(lines): ...`,
chart_analyzer.py lines 73-85), carrying the loop state
`(i, title, headers, data)`. -/
def primaryLoop : Nat → Str → List Str → List (List Str) → List Str →
    Str × List Str × List (List Str)
  | _, title, headers, data, [] => (title, headers, data)
  | i, title, headers, data, line :: rest =>
    if hasPipe line then
      if containsTITLE line || i == 0 then
        primaryLoop (i + 1) (titleFromLine line) headers data rest
      else if headers.isEmpty then
        primaryLoop (i + 1) title (pipeParts line) data rest
      else
        primaryLoop (i + 1) title headers
          (if (pipeParts line).isEmpty then data else data ++ [pipeParts line]) rest
    else
      primaryLoop (i + 1) title headers data rest

/-- The primary pass over all lines, started with
`title = "Chart"`, `headers = []`, `data = []`. -/
def primaryPass (lines : List Str) : Str × List Str × List (List Str) :=
  primaryLoop 0 ("Chart".data) [] [] lines

/-- Fallback title: `if lines and ":" in lines[0]:
title = lines[0].split(":", 1)[1].strip()` (chart_analyzer.py 92-93). -/
def fallbackTitle (lines : List Str) (title : Str) : Str :=
  match lines with
  | [] => title
  | l0 :: _ => if hasSub [':'] l0 then stripL (afterChar ':' l0) else title

/-- Candidate data rows of the whitespace fallback
(chart_analyzer.py 96-105): skip blank lines and lines containing
`TITLE`; keep whitespace token lists of length at least 2. -/
def potentialData (lines : List Str) : List (List Str) :=
  lines.filterMap (fun line =>
    if (stripL line).isEmpty || containsTITLE line then none
    else
      let parts := tokens line
      if 2 ≤ parts.length then some parts else none)

/-- `part.replace('.', '').replace('%', '')`. -/
def stripNum (p : Str) : Str := p.filter (fun c => !(c == '.') && !(c == '%'))

/-- `all(not part.replace('.', '').replace('%', '').isdigit() for part in row)`. -/
def allNonNum (row : List Str) : Bool :=
  row.all (fun p => !pyIsDigit (stripNum p))

/-- The synthetic header `f"Column {n}"`. -/
def colName (n : Nat) : Str := "Column ".data ++ (Nat.repr n).data

/-- Headers/data assignment of the fallback strategy
(chart_analyzer.py 107-116): when candidate rows exist, the first row
becomes the headers when all its tokens are non-numeric, otherwise
synthetic column headers are generated and every candidate row is data;
when no candidate row exists, the incoming values are kept. -/
def fallbackHD (lines : List Str) (headers : List Str) (data : List (List Str)) :
    List Str × List (List Str) :=
  match potentialData lines with
  | [] => (headers, data)
  | first :: rest =>
    if allNonNum first then (first, rest)
    else ((List.range first.length).map (fun i => colName (i + 1)), first :: rest)

/-- The data rows the fallback strategy produces on its own (used to
state that the fallback yielded no row). -/
def fallbackRows (lines : List Str) : List (List Str) :=
  match potentialData lines with
  | [] => []
  | first :: rest => if allNonNum first then rest else first :: rest

/-- Column-count normalization (chart_analyzer.py 125-140): with
nonempty data, pad headers and every row with empty strings up to
`max_cols`; with empty data, emit the single synthetic header and the
single placeholder row. -/
def normalizeT (headers : List Str) (data : List (List Str)) :
    List Str × List (List Str) :=
  match data with
  | [] => (["Column 1".data], [["No data extracted".data]])
  | _ :: _ =>
    let hlen := match headers with | [] => 0 | _ :: _ => headers.length
    let maxRow := data.foldl (fun m r => max m r.length) 0
    let maxCols := max (max hlen 1) maxRow
    let headersP :=
      match headers with
      | [] => (List.range maxCols).map (fun i => colName (i + 1))
      | _ :: _ => headers ++ List.replicate (maxCols - headers.length) ([] : Str)
    (headersP, data.map (fun r => r ++ List.replicate (maxCols - r.length) ([] : Str)))

/-- Primary pass followed by the fallback strategy when the primary pass
left headers or data empty (`if not headers or not data:`). -/
def assembleHD (lines : List Str) : Str × List Str × List (List Str) :=
  let p := primaryPass lines
  if p.2.1.isEmpty || p.2.2.isEmpty then
    (fallbackTitle lines p.1, fallbackHD lines p.2.1 p.2.2)
  else p

/-- The parsing section of `extract_table_from_chart`
(chart_analyzer.py 66-140) as a pure function of the raw model output:
returns `(title, headers, data)`. -/
def extract_table_from_chart (raw_output : Str) : Str × List Str × List (List Str) :=
  let a := assembleHD (splitMark raw_output)
  let n := normalizeT a.2.1 a.2.2
  (a.1, n.1, n.2)

/-! ## LLM client (`ask_local_llm`, chart_analyzer.py 155-205) -/

/-- The fixed keyword set of the visual-question classifier
(chart_analyzer.py line 159). -/
def color_terms : List Str :=
  ["color".data, "colours".data, "visual".data, "appearance".data,
   "style".data, "design".data, "scheme".data]

/-- `any(term in question.lower() for term in [...])`. -/
def is_color_question (question : Str) : Bool :=
  color_terms.any (fun t => hasSub t (lowerL question))

/-- The base prompt block
`f"Title: {title}\nData: {table_data}\nQuestion: {question}\n"`. -/
def base_prompt (title table_data question : Str) : Str :=
  "Title: ".data ++ title ++ "\nData: ".data ++ table_data
    ++ "\nQuestion: ".data ++ question ++ "\n".data

/-- The fixed five-point visual-analysis instruction block appended for
visual questions (chart_analyzer.py 169-177). -/
def visual_block : Str :=
  "\nIMPORTANT: Your task is to analyze the visual elements of this chart, with special attention to colors. Please provide:\n1. A detailed description of all colors used in the chart\n2. What each color represents in the context of the data\n3. How colors are used to distinguish between different data points, categories, or values\n4. Any color patterns, gradients, or visual indicators of importance\n5. How effectively the color scheme communicates the data\n\nFocus primarily on the VISUAL APPEARANCE rather than just the numeric data.".data

/-- The generic data-answering instruction block appended otherwise
(chart_analyzer.py 179-180). -/
def generic_block : Str :=
  "\nPlease provide a detailed answer based on the data and question above. When relevant, include observations about the visual elements of the chart, including colors and design.".data

/-- Prompt construction of `ask_local_llm` (chart_analyzer.py 158-180). -/
def build_prompt (question table_data title : Str) : Str :=
  base_prompt title table_data question
    ++ (if is_color_question question then visual_block else generic_block)

/-- Outcome of the POST to the generate endpoint, one constructor per
outcome class the Python `try/except` discriminates: an HTTP response
carrying status code, decoded `response` field and raw text; a
`requests.exceptions.Timeout`; any other
`requests.exceptions.RequestException` with its message. -/
inductive GenerateResult where
  | response (status_code : Nat) (resp : Str) (text : Str)
  | timeoutExc
  | requestExc (msg : Str)

/-- Result handling of `ask_local_llm` (chart_analyzer.py 183-205): the
prompt built from the arguments is posted, and the returned string is
determined by the transport outcome. -/
def ask_local_llm (question table_data title : Str) (out : GenerateResult) : Str :=
  let _prompt := build_prompt question table_data title
  match out with
  | .response code resp text =>
    if code == 200 then resp
    else "Error: ".data
      ++ ("Error from Ollama API: ".data ++ ((Nat.repr code).data ++ (" - ".data ++ text)))
  | .timeoutExc =>
    "Error: Request timed out after 7 minutes. Please try again with a simpler question or a different model.".data
  | .requestExc msg => "Error: ".data ++ msg

/-! ## Status checker (`check_ollama_status`, chart_analyzer.py 208-218) -/

/-- Outcome of the GET to the model-listing endpoint: an HTTP response
with its status code and either the decoded list of model names or
`none` for an undecodable body (whose `.json()` call raises a
`RequestException` subclass), or a `requests.exceptions.RequestException`. -/
inductive TagsResult where
  | response (status_code : Nat) (models : Option (List Str))
  | requestExc (msg : Str)

/-- `check_ollama_status` as a function of the transport outcome. -/
def check_ollama_status (out : TagsResult) : Bool × List Str :=
  match out with
  | .response code ms =>
    if code == 200 then
      match ms with
      | some models => (true, models)
      | none => (false, [])
    else (false, [])
  | .requestExc _ => (false, [])

/-! ## Status cache (`app.py` 76-94 and the `/status` endpoint 114-138) -/

/-- The process-wide `ollama_status_cache` dictionary. -/
structure StatusCache where
  last_check : ℚ
  status : Option Bool
  models : Option (List Str)
  cache_duration : ℚ

/-- The initial cache value (`last_check = 0`, nothing stored,
`cache_duration = 30`). -/
def ollama_status_cache_init : StatusCache :=
  { last_check := 0, status := none, models := none, cache_duration := 30 }

/-- `get_cached_ollama_status` (app.py 83-88). -/
def get_cached_ollama_status (c : StatusCache) (now : ℚ) :
    Option Bool × Option (List Str) :=
  if now - c.last_check < c.cache_duration then (c.status, c.models) else (none, none)

/-- `update_ollama_status_cache` (app.py 90-94). -/
def update_ollama_status_cache (c : StatusCache) (now : ℚ) (st : Bool) (ms : List Str) :
    StatusCache :=
  { c with last_check := now, status := some st, models := some ms }

/-- One execution of the `/status` handler (app.py 114-138) at time
`now`, where `poll` is the result `check_ollama_status` would return if
the upstream service were polled. Returns the new cache, the response
payload `(ollama_available, available_models)`, and whether an upstream
poll was issued. -/
def status_endpoint (c : StatusCache) (now : ℚ) (poll : Bool × List Str) :
    StatusCache × (Bool × Option (List Str)) × Bool :=
  match get_cached_ollama_status c now with
  | (some st, ms) => (c, (st, ms), false)
  | (none, _) => (update_ollama_status_cache c now poll.1 poll.2, (poll.1, some poll.2), true)

/-! ## Upload-file cleanup (`/extract` app.py 288-331, `/api/analyze-chart` app.py 464-507) -/

/-- Presence of the temporarily saved upload file. -/
structure FileState where
  present : Bool

/-- A best-effort `os.remove` wrapped in `try/except: pass`: when the
removal raises, the file stays and the exception is swallowed. -/
def cleanup (s : FileState) (remove_fails : Bool) : FileState :=
  if remove_fails then s else { present := false }

/-- The `/extract` handler from the point the upload has been saved:
`body` abstracts the outcome of `extract_table_from_chart` plus
serialization (`.ok` returns 200, an exception returns 500), and the
`finally` block runs `cleanup` on both paths. Returns the HTTP status
and the final file state. -/
def extract_endpoint (body : Except Str Unit) (remove_fails : Bool) : Nat × FileState :=
  let saved : FileState := { present := true }
  let code := match body with | .ok _ => 200 | .error _ => 500
  (code, cleanup saved remove_fails)

/-- The `/api/analyze-chart` handler from the point the upload has been
saved: cleanup is executed inline after a successful
`extract_table_from_chart`; when the body raises, the `except` handler
returns 500 without any cleanup. -/
def analyze_chart_endpoint (body : Except Str Unit) (remove_fails : Bool) :
    Nat × FileState :=
  let saved : FileState := { present := true }
  match body with
  | .ok _ => (200, cleanup saved remove_fails)
  | .error _ => (500, saved)

/-! ## Row serialization of `/extract` (app.py 302-309) -/

/-- Python dict assignment `d[k] = v` on a dict represented as an
association list in insertion order: an existing key keeps its position
and gets the new value, a fresh key is appended. -/
def pyDictInsert : List (Str × Str) → Str → Str → List (Str × Str)
  | [], k, v => [(k, v)]
  | kv :: rest, k, v =>
    if kv.1 = k then (k, v) :: rest else kv :: pyDictInsert rest k v

/-- `row_dict` construction (app.py 305-308):
`for i, header in enumerate(headers): if i < len(row): row_dict[header] = row[i]`. -/
def row_to_dict (headers row : List Str) : List (Str × Str) :=
  headers.enum.foldl
    (fun d p => if p.1 < row.length then pyDictInsert d p.2 (row.getD p.1 []) else d) []

/-- `serializable_data` (app.py 303-309). -/
def serializable_data (headers : List Str) (data : List (List Str)) :
    List (List (Str × Str)) :=
  data.map (row_to_dict headers)

/-- Dict lookup on the association-list representation. -/
def lookupD : List (Str × Str) → Str → Option Str
  | [], _ => none
  | kv :: rest, k => if kv.1 = k then some kv.2 else lookupD rest k

/-! ## Helper lemmas -/

lemma hasPre_refl (s : Str) : hasPre s s = true := by
  induction s with
  | nil => rfl
  | cons c cs ih => simp [hasPre, ih]

lemma hasPre_append_of (s a b : Str) (h : hasPre s a = true) :
    hasPre s (a ++ b) = true := by
  induction s generalizing a with
  | nil => rfl
  | cons c cs ih =>
    cases a with
    | nil => simp [hasPre] at h
    | cons d ds =>
      simp only [hasPre, Bool.and_eq_true, beq_iff_eq] at h
      simp only [List.cons_append, hasPre, Bool.and_eq_true, beq_iff_eq]
      exact ⟨h.1, ih ds h.2⟩

lemma hasPre_of_append_le (a b s : Str) (h : hasPre s (a ++ b) = true)
    (hl : a.length ≤ s.length) : hasPre a s = true := by
  induction a generalizing s with
  | nil => rfl
  | cons x as ih =>
    cases s with
    | nil => simp at hl
    | cons y ss =>
      simp only [List.cons_append, hasPre, Bool.and_eq_true, beq_iff_eq] at h
      simp only [hasPre, Bool.and_eq_true, beq_iff_eq]
      refine ⟨h.1.symm, ih ss h.2 ?_⟩
      simpa using hl

lemma hasSub_append_self (b s : Str) : hasSub s (b ++ s) = true := by
  induction b with
  | nil =>
    cases s with
    | nil => rfl
    | cons c cs => simp [hasSub, hasPre_refl]
  | cons c b' ih => simp [hasSub, ih]

lemma le_foldl_len (data : List (List Str)) (init : ℕ) :
    init ≤ data.foldl (fun m r => max m r.length) init := by
  induction data generalizing init with
  | nil => simp
  | cons d ds ih =>
    simp only [List.foldl_cons]
    exact le_trans (Nat.le_max_left init d.length) (ih (max init d.length))

lemma mem_le_foldl_len (r : List Str) (data : List (List Str)) (init : ℕ)
    (h : r ∈ data) :
    r.length ≤ data.foldl (fun m row => max m row.length) init := by
  induction data generalizing init with
  | nil => cases h
  | cons d ds ih =>
    simp only [List.foldl_cons]
    rcases List.mem_cons.mp h with rfl | h'
    · exact le_trans (Nat.le_max_right init r.length) (le_foldl_len ds _)
    · exact ih _ h'

lemma normalizeT_lengths (headers : List Str) (data : List (List Str)) :
    ∀ r ∈ (normalizeT headers data).2, r.length = (normalizeT headers data).1.length := by
  intro r hr
  cases data with
  | nil =>
    simp only [normalizeT, List.mem_singleton] at hr
    subst hr
    simp [normalizeT]
  | cons d ds =>
    cases headers with
    | nil =>
      simp only [normalizeT, List.mem_map] at hr
      obtain ⟨r0, hr0, rfl⟩ := hr
      have hr0le : r0.length ≤ max (max 0 1)
          ((d :: ds).foldl (fun m row => max m row.length) 0) :=
        le_trans (mem_le_foldl_len _ _ 0 hr0) (Nat.le_max_right _ _)
      simp only [normalizeT, List.length_append, List.length_replicate, List.length_map,
        List.length_range]
      omega
    | cons h0 hs =>
      simp only [normalizeT, List.mem_map] at hr
      obtain ⟨r0, hr0, rfl⟩ := hr
      have hr0le : r0.length ≤ max (max (h0 :: hs).length 1)
          ((d :: ds).foldl (fun m row => max m row.length) 0) :=
        le_trans (mem_le_foldl_len _ _ 0 hr0) (Nat.le_max_right _ _)
      simp only [List.length_cons] at hr0le
      simp only [normalizeT, List.length_append, List.length_replicate, List.length_cons]
      omega

lemma lookupD_insert (d : List (Str × Str)) (k v k' : Str) :
    lookupD (pyDictInsert d k v) k' = if k' = k then some v else lookupD d k' := by
  induction d with
  | nil =>
    by_cases h : k' = k
    · simp [pyDictInsert, lookupD, h]
    · have h' : ¬ k = k' := fun hh => h hh.symm
      simp [pyDictInsert, lookupD, h, h']
  | cons kv rest ih =>
    by_cases h1 : kv.1 = k
    · by_cases h2 : k' = k
      · simp [pyDictInsert, lookupD, h1, h2]
      · have h3 : ¬ kv.1 = k' := by rw [h1]; exact fun hh => h2 hh.symm
        have h4 : ¬ k = k' := fun hh => h2 hh.symm
        simp [pyDictInsert, lookupD, h1, h2, h3, h4]
    · by_cases h2 : kv.1 = k'
      · have h3 : ¬ k' = k := by rw [← h2]; exact h1
        simp [pyDictInsert, lookupD, h1, h2, h3]
      · simp [pyDictInsert, lookupD, h1, h2, ih]

lemma lookupD_foldl_insert (ps : List (Str × Str)) (d : List (Str × Str)) (k : Str) :
    lookupD (ps.foldl (fun acc p => pyDictInsert acc p.1 p.2) d) k
      = match (ps.filter (fun p => decide (p.1 = k))).getLast? with
        | some q => some q.2
        | none => lookupD d k := by
  induction ps generalizing d with
  | nil => rfl
  | cons p ps ih =>
    simp only [List.foldl_cons]
    rw [ih]
    by_cases hpk : p.1 = k
    · simp only [List.filter_cons, hpk, decide_True]
      cases hfl : ps.filter (fun q => decide (q.1 = k)) with
      | nil => simp [hfl, lookupD_insert, hpk]
      | cons q qs => simp [hfl, List.getLast?_cons]
    · have hpk' : ¬ k = p.1 := fun hh => hpk hh.symm
      cases hfl : ps.filter (fun q => decide (q.1 = k)) with
      | nil => simp [List.filter_cons, hpk, hfl, lookupD_insert, hpk']
      | cons q qs => simp [List.filter_cons, hpk, hfl, List.getLast?_cons]

lemma foldl_guard {α β : Type} (P : α → Prop) [DecidablePred P] (f : β → α → β)
    (l : List α) (b : β) :
    l.foldl (fun acc a => if P a then f acc a else acc) b
      = (l.filter (fun a => decide (P a))).foldl f b := by
  induction l generalizing b with
  | nil => rfl
  | cons a l ih =>
    by_cases h : P a
    · simp [List.filter_cons, h, ih]
    · simp [List.filter_cons, h, ih]

/-! ## Claim theorems -/

/-- C1: for every raw model output, every row of the table returned by
`extract_table_from_chart` has the same length as the header list
(equal column counts come from padding with empty strings in
`normalizeT`, which only ever appends to rows and headers). -/
theorem extract_row_header_length_invariant (raw : Str) (r : List Str)
    (hr : r ∈ (extract_table_from_chart raw).2.2) :
    r.length = (extract_table_from_chart raw).2.1.length := by
  simp only [extract_table_from_chart] at hr ⊢
  exact normalizeT_lengths _ _ r hr

theorem extract_row_header_length_invariant_witness :
    (["e".data, "f".data] ∈ (extract_table_from_chart "a|b<0x0A>c|d<0x0A>e|f".data).2.2)
    ∧ (["e".data, "f".data] : List Str).length
        = (extract_table_from_chart "a|b<0x0A>c|d<0x0A>e|f".data).2.1.length :=
  ⟨by decide, extract_row_header_length_invariant _ _ (by decide)⟩

/-- C2: when neither the pipe-based primary pass nor the whitespace
fallback produces any data row, `extract_table_from_chart` returns
exactly one synthetic header and exactly one placeholder row (and, being
a total function, does not raise). -/
theorem extract_placeholder_when_no_rows (raw : Str)
    (hp : (primaryPass (splitMark raw)).2.2 = [])
    (hf : fallbackRows (splitMark raw) = []) :
    (extract_table_from_chart raw).2.1 = ["Column 1".data]
    ∧ (extract_table_from_chart raw).2.2 = [["No data extracted".data]] := by
  have hfd : (fallbackHD (splitMark raw) (primaryPass (splitMark raw)).2.1 []).2 = [] := by
    unfold fallbackRows at hf
    unfold fallbackHD
    cases hpot : potentialData (splitMark raw) with
    | nil => rfl
    | cons f rest =>
      rw [hpot] at hf
      by_cases han : allNonNum f = true
      · simp only [han, if_true] at hf ⊢
        exact hf
      · have han' : allNonNum f = false := by simpa using han
        simp only [han', Bool.false_eq_true, if_false] at hf
        exact absurd hf (by simp)
  have had : (assembleHD (splitMark raw)).2.2 = [] := by
    simp only [assembleHD, hp]
    simp only [List.isEmpty_nil, Bool.or_true, if_true]
    exact hfd
  constructor
  · simp only [extract_table_from_chart]
    rw [had]
    rfl
  · simp only [extract_table_from_chart]
    rw [had]
    rfl

theorem extract_placeholder_when_no_rows_witness :
    (primaryPass (splitMark "hello".data)).2.2 = []
    ∧ fallbackRows (splitMark "hello".data) = []
    ∧ (extract_table_from_chart "hello".data).2.1 = ["Column 1".data]
    ∧ (extract_table_from_chart "hello".data).2.2 = [["No data extracted".data]] :=
  ⟨by decide, by decide,
   (extract_placeholder_when_no_rows _ (by decide) (by decide)).1,
   (extract_placeholder_when_no_rows _ (by decide) (by decide)).2⟩

/-- C3 counterexample: for the raw output `"x<0x0A>a|b<0x0A>c|d"`, the
first line containing a pipe delimiter is `"a|b"` (at index 1 of the
line split). The claim says this line is treated as the title line
(title `"b"`) and is not consumed as headers; the code instead leaves
the title at the default `"Chart"` and consumes `"a|b"` as the header
row, because only the line at index 0 (or a `TITLE` line) is treated as
the title. -/
theorem first_pipe_line_not_title_cex :
    extract_table_from_chart "x<0x0A>a|b<0x0A>c|d".data
      = ("Chart".data, ["a".data, "b".data], [["c".data, "d".data]]) := by decide

/-- C3 amended: in the primary strategy, the line at index 0 of the line
split — when it contains a pipe — and every pipe-containing line whose
uppercase form contains `"TITLE"` are treated as title lines: the title
becomes the last pipe-delimited cell of that line (default `"Chart"`
when the line has no nonempty cell) and the line is not consumed as
headers or as a data row, the loop continuing on the remaining lines
with headers and data unchanged. -/
theorem title_line_handling_amended :
    (∀ l0 rest, hasPipe l0 = true →
        primaryPass (l0 :: rest) = primaryLoop 1 (titleFromLine l0) [] [] rest)
    ∧ (∀ i title headers data l rest, hasPipe l = true → containsTITLE l = true →
        primaryLoop i title headers data (l :: rest)
          = primaryLoop (i + 1) (titleFromLine l) headers data rest) := by
  constructor
  · intro l0 rest h
    simp [primaryPass, primaryLoop, h]
  · intro i title headers data l rest h ht
    simp [primaryLoop, h, ht]

theorem title_line_handling_amended_witness :
    primaryPass ("a|b".data :: []) = primaryLoop 1 (titleFromLine "a|b".data) [] [] []
    ∧ primaryLoop 3 ("t".data) ["h".data] [] ("my TITLE | Sales".data :: [])
        = primaryLoop 4 (titleFromLine "my TITLE | Sales".data) ["h".data] [] [] :=
  ⟨title_line_handling_amended.1 _ _ (by decide),
   title_line_handling_amended.2 3 _ _ _ _ _ (by decide) (by decide)⟩

/-- C4: on the raw model text
`"Sales by Region<0x0A>Region|Amount<0x0A>East|100<0x0A>West|200"`, the
extraction parse yields headers `["Region", "Amount"]` and rows
`[["East", "100"], ["West", "200"]]`. -/
theorem extract_example_sales_by_region :
    (extract_table_from_chart
        "Sales by Region<0x0A>Region|Amount<0x0A>East|100<0x0A>West|200".data).2.1
      = ["Region".data, "Amount".data]
    ∧ (extract_table_from_chart
        "Sales by Region<0x0A>Region|Amount<0x0A>East|100<0x0A>West|200".data).2.2
      = [["East".data, "100".data], ["West".data, "200".data]] := by decide

/-- C5: `ask_local_llm` never raises: an HTTP 200 response returns the
body's `response` field unchanged, while a non-200 status, a timeout and
a request (connection) failure each return a string starting with
`"Error:"`. -/
theorem ask_local_llm_error_handling :
    (∀ q td ti resp text, ask_local_llm q td ti (.response 200 resp text) = resp)
    ∧ (∀ q td ti code resp text, code ≠ 200 →
        hasPre "Error:".data (ask_local_llm q td ti (.response code resp text)) = true)
    ∧ (∀ q td ti, hasPre "Error:".data (ask_local_llm q td ti .timeoutExc) = true)
    ∧ (∀ q td ti msg, hasPre "Error:".data (ask_local_llm q td ti (.requestExc msg)) = true) := by
  refine ⟨?_, ?_, ?_, ?_⟩
  · intro q td ti resp text
    simp [ask_local_llm]
  · intro q td ti code resp text hc
    have hb : (code == 200) = false := by simpa using hc
    simp only [ask_local_llm, hb, Bool.false_eq_true, if_false]
    exact hasPre_append_of _ _ _ (by decide)
  · intro q td ti
    simp only [ask_local_llm]
    decide
  · intro q td ti msg
    simp only [ask_local_llm]
    exact hasPre_append_of _ _ _ (by decide)

theorem ask_local_llm_error_handling_witness :
    hasPre "Error:".data (ask_local_llm [] [] [] (.response 404 [] [])) = true :=
  ask_local_llm_error_handling.2.1 [] [] [] 404 [] [] (by decide)

set_option maxRecDepth 40000

/-- C6: the five-point visual-analysis block is the appended suffix of
the prompt built by `ask_local_llm` exactly when the question contains a
keyword of the fixed set, case-insensitively; when a keyword matches the
prompt contains the block, and when none matches the generic
data-answering instruction is appended instead. -/
theorem prompt_visual_block_iff_color_keyword (question table_data title : Str) :
    endsWithL visual_block (build_prompt question table_data title) = is_color_question question
    ∧ (is_color_question question = true →
        hasSub visual_block (build_prompt question table_data title) = true)
    ∧ (is_color_question question = false →
        build_prompt question table_data title
          = base_prompt title table_data question ++ generic_block) := by
  refine ⟨?_, ?_, ?_⟩
  · cases h : is_color_question question with
    | true =>
      simp only [build_prompt, h, if_true]
      unfold endsWithL
      rw [List.reverse_append]
      exact hasPre_append_of _ _ _ (hasPre_refl _)
    | false =>
      simp only [build_prompt, h, Bool.false_eq_true, if_false]
      apply Bool.eq_false_iff.mpr
      intro htrue
      unfold endsWithL at htrue
      rw [List.reverse_append] at htrue
      have h2 : hasPre generic_block.reverse visual_block.reverse = true :=
        hasPre_of_append_le _ _ _ htrue (by simp [List.length_reverse]; decide)
      have h3 : hasPre generic_block.reverse visual_block.reverse = false := by decide
      rw [h2] at h3
      simp at h3
  · intro h
    simp only [build_prompt, h, if_true]
    exact hasSub_append_self _ _
  · intro h
    simp [build_prompt, h]

theorem prompt_visual_block_iff_color_keyword_witness :
    hasSub visual_block (build_prompt "What color is the largest bar?".data [] []) = true
    ∧ build_prompt "What is the total?".data [] []
        = base_prompt [] [] "What is the total?".data ++ generic_block :=
  ⟨(prompt_visual_block_iff_color_keyword _ _ _).2.1 (by decide),
   (prompt_visual_block_iff_color_keyword _ _ _).2.2 (by decide)⟩

/-- C7: `check_ollama_status` never raises: an HTTP 200 response with a
decodable model list returns `(true, names)`; a non-200 status, an
undecodable 200 body, and a request exception (covering timeout and
connection failure) each return `(false, [])`. -/
theorem check_ollama_status_outcomes :
    (∀ ms, check_ollama_status (.response 200 (some ms)) = (true, ms))
    ∧ (∀ code ms, code ≠ 200 → check_ollama_status (.response code ms) = (false, []))
    ∧ check_ollama_status (.response 200 none) = (false, [])
    ∧ (∀ msg, check_ollama_status (.requestExc msg) = (false, [])) := by
  refine ⟨?_, ?_, ?_, ?_⟩
  · intro ms
    simp [check_ollama_status]
  · intro code ms hc
    have hb : (code == 200) = false := by simpa using hc
    simp [check_ollama_status, hb]
  · simp [check_ollama_status]
  · intro msg
    rfl

theorem check_ollama_status_outcomes_witness :
    check_ollama_status (.response 404 none) = (false, []) :=
  check_ollama_status_outcomes.2.1 404 none (by decide)

/-- C8: with the 30-second cache duration, when the first of two status
queries within 30 seconds of each other polls upstream, the second does
not poll, reuses the value the first poll stored, and leaves the cache
unchanged (so any two queries within 30 seconds issue at most one
upstream poll); and a query arriving more than 30 seconds after the
last recorded check polls upstream and updates the cache. -/
theorem status_cache_poll_behavior :
    (∀ (c : StatusCache) (t1 t2 : ℚ) (p1 p2 : Bool × List Str),
        c.cache_duration = 30 → t1 ≤ t2 → t2 - t1 < 30 →
        (status_endpoint c t1 p1).2.2 = true →
        (status_endpoint (status_endpoint c t1 p1).1 t2 p2).2.2 = false
          ∧ (status_endpoint (status_endpoint c t1 p1).1 t2 p2).2.1 = (p1.1, some p1.2)
          ∧ (status_endpoint (status_endpoint c t1 p1).1 t2 p2).1
              = (status_endpoint c t1 p1).1)
    ∧ (∀ (c : StatusCache) (t : ℚ) (p : Bool × List Str),
        c.cache_duration = 30 → t - c.last_check > 30 →
        (status_endpoint c t p).2.2 = true
          ∧ (status_endpoint c t p).1 = update_ollama_status_cache c t p.1 p.2) := by
  constructor
  · intro c t1 t2 p1 p2 hdur hle hlt hp1
    rcases hg : get_cached_ollama_status c t1 with ⟨st, ms⟩
    cases st with
    | some s =>
      rw [status_endpoint, hg] at hp1
      simp at hp1
    | none =>
      have hc1 : (status_endpoint c t1 p1).1 = update_ollama_status_cache c t1 p1.1 p1.2 := by
        rw [status_endpoint, hg]
      have hfresh : get_cached_ollama_status (update_ollama_status_cache c t1 p1.1 p1.2) t2
          = (some p1.1, some p1.2) := by
        have hcond : t2 - t1 < c.cache_duration := by
          rw [hdur]
          linarith
        simp [get_cached_ollama_status, update_ollama_status_cache, hcond]
      rw [hc1]
      refine ⟨?_, ?_, ?_⟩ <;> rw [status_endpoint, hfresh]
  · intro c t p hdur hgt
    have hnlt : ¬ (t - c.last_check < c.cache_duration) := by
      rw [hdur]
      linarith
    have hg : get_cached_ollama_status c t = (none, none) := by
      simp [get_cached_ollama_status, hnlt]
    constructor <;> rw [status_endpoint, hg]

theorem status_cache_poll_behavior_witness :
    ((status_endpoint (status_endpoint ollama_status_cache_init 100 (true, ["m".data])).1
        110 (false, [])).2.2 = false
      ∧ (status_endpoint (status_endpoint ollama_status_cache_init 100 (true, ["m".data])).1
          110 (false, [])).2.1 = (true, some ["m".data])
      ∧ (status_endpoint (status_endpoint ollama_status_cache_init 100 (true, ["m".data])).1
          110 (false, [])).1
        = (status_endpoint ollama_status_cache_init 100 (true, ["m".data])).1)
    ∧ ((status_endpoint ollama_status_cache_init 100 (true, ["m".data])).2.2 = true
      ∧ (status_endpoint ollama_status_cache_init 100 (true, ["m".data])).1
        = update_ollama_status_cache ollama_status_cache_init 100 true ["m".data]) :=
  ⟨status_cache_poll_behavior.1 ollama_status_cache_init 100 110 (true, ["m".data]) (false, [])
      rfl (by norm_num) (by norm_num)
      (by norm_num [status_endpoint, get_cached_ollama_status, ollama_status_cache_init]),
   status_cache_poll_behavior.2 ollama_status_cache_init 100 (true, ["m".data]) rfl
      (by norm_num [ollama_status_cache_init])⟩

/-- C9 counterexample: in the `/api/analyze-chart` handler, when
`extract_table_from_chart` raises after the upload has been saved, the
handler returns 500 with the saved file still present (the removal is
not in a `finally` block), even though removal itself would succeed —
contradicting the claim that no code path returns while leaving the
saved file in place. -/
theorem analyze_chart_leaves_file_cex :
    (analyze_chart_endpoint (.error "extraction failed".data) false).2.present = true
    ∧ (analyze_chart_endpoint (.error "extraction failed".data) false).1 = 500 :=
  ⟨rfl, rfl⟩

/-- C9 amended: the `/extract` handler removes the saved upload on every
outcome (success or exception), and a removal failure is swallowed
without changing the HTTP response; the `/api/analyze-chart` handler
removes the saved upload only on the success path, and an exception
during processing returns with the file left in place. -/
theorem upload_cleanup_amended :
    (∀ body : Except Str Unit, (extract_endpoint body false).2.present = false)
    ∧ (∀ (body : Except Str Unit) (rf : Bool),
        (extract_endpoint body rf).1 = (extract_endpoint body false).1)
    ∧ (analyze_chart_endpoint (.ok ()) false).2.present = false
    ∧ (∀ msg : Str, (analyze_chart_endpoint (.error msg) false).2.present = true) :=
  ⟨fun _ => rfl, fun _ _ => rfl, rfl, fun _ => rfl⟩

/-- C10: the `/extract` serialization assigns `row_dict[header] = row[i]`
for each header position `i` with `i < len(row)`, so looking a key up
in the produced dict returns the cell at the last position carrying that
header name (earlier cells with a duplicate header name are
overwritten); in particular, for a padded table whose headers contain
duplicate (empty-string) names, the dict holds fewer values than the
table has columns. -/
theorem row_dict_last_occurrence_wins :
    (∀ headers row k,
        lookupD (row_to_dict headers row) k
          = ((headers.enum.filter
                (fun p => decide (p.2 = k) && decide (p.1 < row.length))).getLast?).map
              (fun p => row.getD p.1 ([] : Str)))
    ∧ row_to_dict ["A".data, ([] : Str), ([] : Str)] ["1".data, "2".data, "3".data]
        = [("A".data, "1".data), (([] : Str), "3".data)]
    ∧ (row_to_dict ["A".data, ([] : Str), ([] : Str)]
          ["1".data, "2".data, "3".data]).length = 2 := by
  refine ⟨?_, by decide, by decide⟩
  intro headers row k
  rw [row_to_dict, foldl_guard (fun p : ℕ × Str => p.1 < row.length)
    (fun d p => pyDictInsert d p.2 (row.getD p.1 [])) headers.enum []]
  rw [show (fun (d : List (Str × Str)) (p : ℕ × Str) => pyDictInsert d p.2 (row.getD p.1 []))
      = (fun d p => (fun acc q => pyDictInsert acc q.1 q.2) d
          ((fun p : ℕ × Str => (p.2, row.getD p.1 ([] : Str))) p)) from rfl]
  rw [← List.foldl_map (fun p : ℕ × Str => (p.2, row.getD p.1 ([] : Str)))
    (fun acc q => pyDictInsert acc q.1 q.2)]
  rw [lookupD_foldl_insert]
  rw [List.filter_map]
  rw [List.getLast?_map]
  rw [List.filter_filter]
  cases hgl : ((headers.enum.filter
      (fun p => decide (p.2 = k) && decide (p.1 < row.length)))).getLast? with
  | none => simp [hgl, lookupD]
  | some q => simp [hgl]

end ChartQA
